import Mathlib

/-!
# Verification of the hang-man-agentlet repository

Shallow embedding of the two source files:
* `src/hang-man/agentlet.js` — the `HangmanAgentlet` game state machine;
* `src/lib/agentlet-1.0.0.js` — the abstract `Agentlet` base class routing
  the observed `message` attribute to tool calls or free-form messages.

JavaScript strings are modelled as Lean `String`; JavaScript `Set` objects
(of strings, in insertion order, as `Array.from` enumerates them) as
`List String`; the JavaScript number `_remainingAttempts` as `Int` (so that
the `--` decrement is modelled exactly, without truncated subtraction).
`String.prototype.includes` is substring containment, modelled by
`List.IsInfix` on the character lists.
-/

namespace HangMan

/-- Model of JavaScript `String.prototype.toLowerCase` restricted to the
characters the game can meet: ASCII letters and the Spanish letters that
appear in the virtual-keyboard alphabet.  Other characters are unchanged. -/
def jsToLower (c : Char) : Char :=
  if 65 ≤ c.toNat ∧ c.toNat ≤ 90 then Char.ofNat (c.toNat + 32)
  else if c = 'Á' then 'á'
  else if c = 'É' then 'é'
  else if c = 'Í' then 'í'
  else if c = 'Ó' then 'ó'
  else if c = 'Ú' then 'ú'
  else if c = 'Ü' then 'ü'
  else if c = 'Ñ' then 'ñ'
  else c

/-- Lowercasing of a whole string, `s.toLowerCase()`. -/
def strToLower (s : String) : String := ⟨s.data.map jsToLower⟩

/-- JavaScript `a.includes(b)`: `b` is a substring of `a`. -/
def jsIncludes (a b : String) : Bool := decide (b.data <:+: a.data)

/-- The character class of the regex `/^[a-zñáéíóú]$/` (body). -/
def isSpanishLetter (c : Char) : Bool :=
  (Nat.ble 97 c.toNat && Nat.ble c.toNat 122) || c == 'ñ' || c == 'á' ||
    c == 'é' || c == 'í' || c == 'ó' || c == 'ú'

/-- The regex test `/^[a-zñáéíóú]$/.test(key)`: exactly one character,
drawn from the Spanish lowercase alphabet. -/
def isValidKey (s : String) : Bool :=
  match s.data with
  | [c] => isSpanishLetter c
  | _ => false

/-- The game-state fields of `HangmanAgentlet`
(`_secretWord`, `_guessedLetters`, `_incorrectLetters`,
`_remainingAttempts`, `_gameOver`, `_aiTurn`). -/
structure GameState where
  secretWord : String
  guessedLetters : List String
  incorrectLetters : List String
  remainingAttempts : Int
  gameOver : Bool
  aiTurn : Bool
deriving Repr, DecidableEq

/-- Source constant `_maxAttempts = 6`. -/
def maxAttempts : Int := 6

/-- The state installed by the constructor. -/
def initialState : GameState :=
  { secretWord := ""
    guessedLetters := []
    incorrectLetters := []
    remainingAttempts := maxAttempts
    gameOver := false
    aiTurn := false }

/-- The narration messages pushed to the shell by `_sendMessage`
(envelopes of type message carrying a text field); the interpolated Spanish
text is abstracted into one constructor per template, carrying the
interpolated data. -/
inductive Narration where
  | yaIntentada (key : String)
  | presionCorrecta (key : String)
  | presionIncorrecta (key : String) (restantes : Int)
  | usuarioAdivino (word : String)
  | usuarioFallo (word : String)
deriving Repr, DecidableEq

/-- The `message` field of the structured tool results, one constructor per
template string in the source, carrying the interpolated data. -/
inductive ToolMessage where
  | juegoIniciadoUsuario
  | juegoIniciadoIA
  | juegoReiniciado
  | paramWordInvalido
  | paramLetterInvalido
  | toolNoReconocida (name : String)
  | noTurnoIA
  | letraYaIntentada (l : String)
  | intentoIA (l : String) (correcta : Bool) (restantes : Int)
      (finJuego : Option (Bool × String))
deriving Repr, DecidableEq

/-- The `response` object of a successful `guessLetter` call. -/
structure AIGuessResponse where
  gameOver : Bool
  won : Bool
  remainingAttempts : Int
  guessedLetters : List String
  incorrectLetters : List String
  masked : String
deriving Repr, DecidableEq

/-- The `response` field of a successful tool result: `{}` for the
start/reset tools, the guess report for `guessLetter`. -/
inductive ToolResponse where
  | empty
  | guess (r : AIGuessResponse)
deriving Repr, DecidableEq

/-- A tool result: on success a status of OK with a message and a response,
on error a status of ERROR with only a message. -/
inductive ToolResult where
  | ok (message : ToolMessage) (response : ToolResponse)
  | err (message : ToolMessage)
deriving Repr, DecidableEq

/-- The `params` argument of `onToolCall`: only the `word` and `letter`
fields are ever read; `none` models an absent field or a non-string value
(the `typeof ... === 'string'` checks in the source). -/
structure ToolParams where
  word : Option String
  letter : Option String
deriving Repr, DecidableEq

/-- The result of `_checkAIGameStatus`: `{gameOver: true, won: true}`,
`{gameOver: true, won: false}`, or `{gameOver: false}` (`won` absent,
modelled by `none`). -/
structure StatusInfo where
  gameOver : Bool
  won : Option Bool
deriving Repr, DecidableEq

/-- Source local `revealed`: every character of the secret word, viewed as a one-character
string (JavaScript split into characters), is a member of `guessedLetters`. -/
def revealed (st : GameState) : Bool :=
  st.secretWord.data.all (fun c => st.guessedLetters.contains ⟨[c]⟩)

/-- Source `_startGame(word)`: sets every field, so the result is independent of
the previous state. -/
def startGame (word : String) : GameState :=
  { secretWord := word
    guessedLetters := []
    incorrectLetters := []
    remainingAttempts := maxAttempts
    gameOver := false
    aiTurn := false }

/-- Source `_startGameAsAI(word)`: as `_startGame` but with `_aiTurn = true`. -/
def startGameAsAI (word : String) : GameState :=
  { startGame word with aiTurn := true }

/-- Source `_resetGame()`: back to the constructor state. -/
def resetGame : GameState := initialState

/-- Source `_checkGameStatus()` (human path): sets `_gameOver` and narrates the
outcome when the word is revealed or the attempts are exhausted. -/
def checkGameStatus (st : GameState) : GameState × List Narration :=
  if revealed st then
    ({ st with gameOver := true }, [.usuarioAdivino st.secretWord])
  else if st.remainingAttempts ≤ 0 then
    ({ st with gameOver := true }, [.usuarioFallo st.secretWord])
  else (st, [])

/-- Source `_checkAIGameStatus()` (tool path): sets `_gameOver` and returns the
status object, without narration. -/
def checkAIGameStatus (st : GameState) : GameState × StatusInfo :=
  if revealed st then ({ st with gameOver := true }, ⟨true, some true⟩)
  else if st.remainingAttempts ≤ 0 then
    ({ st with gameOver := true }, ⟨true, some false⟩)
  else (st, ⟨false, none⟩)

/-- State update of an accepted guess, shared by both guess paths: a letter
occurring in the secret word joins `guessedLetters`; otherwise it joins
`incorrectLetters` and one attempt is spent. -/
def applyGuess (st : GameState) (letter : String) : GameState :=
  if jsIncludes st.secretWord letter then
    { st with guessedLetters := st.guessedLetters ++ [letter] }
  else
    { st with incorrectLetters := st.incorrectLetters ++ [letter],
              remainingAttempts := st.remainingAttempts - 1 }

/-- Source `_handleVirtualKey(letter)`: the human guess path.  Returns the
new state and the narrations pushed to the shell, in order: the press
narration first, then the end-of-game narration of `_checkGameStatus`
when the guess ends the game. -/
def handleVirtualKey (st : GameState) (letter : String) :
    GameState × List Narration :=
  if st.gameOver || st.secretWord == "" || st.aiTurn then (st, [])
  else if !isValidKey (strToLower letter) then (st, [])
  else if st.guessedLetters.contains (strToLower letter) ||
      st.incorrectLetters.contains (strToLower letter) then
    (st, [.yaIntentada (strToLower letter)])
  else if jsIncludes st.secretWord (strToLower letter) then
    ((checkGameStatus (applyGuess st (strToLower letter))).1,
      .presionCorrecta (strToLower letter) ::
        (checkGameStatus (applyGuess st (strToLower letter))).2)
  else
    ((checkGameStatus (applyGuess st (strToLower letter))).1,
      .presionIncorrecta (strToLower letter) (st.remainingAttempts - 1) ::
        (checkGameStatus (applyGuess st (strToLower letter))).2)

/-- Field `masked` in the guess response:
each character of the secret word shown when guessed and replaced by an
underscore otherwise, joined with single spaces. -/
def maskedWord (st : GameState) : String :=
  String.intercalate " "
    (st.secretWord.data.map
      (fun c => if st.guessedLetters.contains ⟨[c]⟩ then (⟨[c]⟩ : String) else "_"))

/-- Outcome of an accepted host-driven guess, built from the state after
`_checkAIGameStatus` ran on the updated state `st1`: the message (with the
end-of-game sentence appended when the status reports game over) and the
structured response (`won` is the truthiness coercion of the possibly
absent `won` field). -/
def guessOutcome (st1 : GameState) (letter : String) (correcta : Bool) :
    GameState × ToolResult :=
  ((checkAIGameStatus st1).1,
    .ok
      (.intentoIA letter correcta
        (checkAIGameStatus st1).1.remainingAttempts
        (if (checkAIGameStatus st1).2.gameOver then
           some ((checkAIGameStatus st1).2.won.getD false,
             (checkAIGameStatus st1).1.secretWord)
         else none))
      (.guess
        { gameOver := (checkAIGameStatus st1).2.gameOver
          won := (checkAIGameStatus st1).2.won.getD false
          remainingAttempts := (checkAIGameStatus st1).1.remainingAttempts
          guessedLetters := (checkAIGameStatus st1).1.guessedLetters
          incorrectLetters := (checkAIGameStatus st1).1.incorrectLetters
          masked := maskedWord (checkAIGameStatus st1).1 }))

/-- Source `_processAIGuess(letter)`: the host-driven guess path.  Returns
the new state and the structured result; the source pushes no narration
here.  The accepted case applies the guess (`applyGuess` is the shared
if on `secretWord.includes(letter)`) and reports through `guessOutcome`. -/
def processAIGuess (st : GameState) (letter : String) :
    GameState × ToolResult :=
  if st.gameOver || !st.aiTurn then (st, .err .noTurnoIA)
  else if st.guessedLetters.contains letter ||
      st.incorrectLetters.contains letter then
    (st, .err (.letraYaIntentada letter))
  else if jsIncludes st.secretWord letter then
    guessOutcome (applyGuess st letter) letter true
  else
    guessOutcome (applyGuess st letter) letter false

/-- Source `onToolCall(toolName, params)` of `HangmanAgentlet`: dispatch on the
tool name (each tool also answers to its `agentlet_`-prefixed alias),
validate the string parameter, and run the corresponding operation. -/
def onToolCall (st : GameState) (toolName : String) (params : ToolParams) :
    GameState × ToolResult :=
  if toolName = "startTurnAsUser" ∨ toolName = "agentlet_startTurnAsUser" then
    match params.word with
    | some w =>
        ({ startGame (strToLower w) with aiTurn := false },
          .ok .juegoIniciadoUsuario .empty)
    | none => (st, .err .paramWordInvalido)
  else if toolName = "guessLetter" ∨ toolName = "agentlet_guessLetter" then
    match params.letter with
    | some l => processAIGuess st (strToLower l)
    | none => (st, .err .paramLetterInvalido)
  else if toolName = "submitSecretWord" ∨ toolName = "agentlet_submitSecretWord" then
    match params.word with
    | some w =>
        ({ startGameAsAI (strToLower w) with aiTurn := true },
          .ok .juegoIniciadoIA .empty)
    | none => (st, .err .paramWordInvalido)
  else if toolName = "resetGame" ∨ toolName = "agentlet_resetGame" then
    (resetGame, .ok .juegoReiniciado .empty)
  else (st, .err (.toolNoReconocida toolName))

/-! ## The `Agentlet` base class (`src/lib/agentlet-1.0.0.js`)

`attributeChangedCallback` parses the new attribute value with
`JSON.parse` and branches on the outcome.  `JSON.parse` is a browser
built-in, so its outcome is an input of the model: either the parse throws
(`ParsedValue.failure`), or it yields a value.  The code then tests
`typeof parsed === 'object' && parsed.tool`: a parsed value is modelled by
whether it is an object and, if so, by its (possibly absent) `tool` string
and its `params`.  `parsed.tool` is truthy exactly when the field is
present and non-empty. -/

/-- Outcome of `JSON.parse(newValue)`. -/
inductive ParsedValue where
  | failure
  | nonObject
  | object (tool : Option String) (params : ToolParams)
deriving Repr, DecidableEq

/-- Truthiness test `typeof parsed === 'object' && parsed.tool`: the tool
name and params when the branch is taken. -/
def toolField : ParsedValue → Option (String × ToolParams)
  | .object (some t) p => if t = "" then none else some (t, p)
  | _ => none

/-- What the base class does towards the outside during one
`attributeChangedCallback`, in order: either send the serialized
tool-response envelope (carrying tool, params and response) to the shell,
or call the subclass hook `onMessageFromShell` with the raw text. -/
inductive BaseAction (R : Type) where
  | sendToolResponse (tool : String) (params : ToolParams) (response : R)
  | callMessageFromShell (raw : String)
deriving Repr, DecidableEq

/-- Source `attributeChangedCallback(name, oldValue, newValue)` of the base class,
generic over the subclass `onToolCall` hook (returning `none` when the hook
returns `undefined`).  `oldValue` is never read.  Console logging is not
modelled. -/
def attributeChangedCallback {R : Type} (onTool : String → ToolParams → Option R)
    (name : String) (newValue : String) (parsed : ParsedValue) :
    List (BaseAction R) :=
  if name ≠ "message" then []
  else
    match parsed with
    | .failure => [.callMessageFromShell newValue]
    | v =>
      match toolField v with
      | some (t, p) =>
          match onTool t p with
          | some r => [.sendToolResponse t p r]
          | none => []
      | none => [.callMessageFromShell newValue]

/-- A message sent to the shell by the hangman agentlet while handling one
`message` attribute change: the tool-response envelope, or a narration
pushed by `_sendMessage`. -/
inductive ShellMsg where
  | toolResponse (tool : String) (params : ToolParams) (response : ToolResult)
  | narration (n : Narration)
deriving Repr, DecidableEq

/-- One `message` attribute change handled by the concrete
`HangmanAgentlet`: the base class routes the parsed value, and the hangman
`onToolCall` always returns a defined result, so a tool branch always sends
exactly the envelope.  `onMessageFromShell` of the hangman only logs.
Returns the new game state and the messages sent to the shell. -/
def handleMessageAttr (st : GameState) (parsed : ParsedValue) :
    GameState × List ShellMsg :=
  match toolField parsed with
  | some (t, p) =>
      ((onToolCall st t p).1, [.toolResponse t p (onToolCall st t p).2])
  | none => (st, [])

/-! ## Operations and reachability

Every externally triggerable mutation of the game state: a tool call
(through the `message` attribute or the reset button) or a virtual key
press.  Rendering only reads the state. -/

/-- One external operation on the hangman state. -/
inductive Op where
  | toolCall (name : String) (params : ToolParams)
  | virtualKey (letter : String)
deriving Repr, DecidableEq

/-- The state transition of one operation. -/
def stepOp (st : GameState) : Op → GameState
  | .toolCall n p => (onToolCall st n p).1
  | .virtualKey l => (handleVirtualKey st l).1

/-- Run a sequence of operations. -/
def runOps (st : GameState) (ops : List Op) : GameState :=
  ops.foldl stepOp st

/-- A state is reachable when some operation sequence leads to it from the
constructor state. -/
def Reachable (st : GameState) : Prop :=
  ∃ ops : List Op, runOps initialState ops = st

/-- The operations the monotonicity claim ranges over: human key presses
and `guessLetter` tool calls. -/
def IsGuessOp : Op → Prop
  | .virtualKey _ => True
  | .toolCall n _ => n = "guessLetter" ∨ n = "agentlet_guessLetter"

/-! ## Helper definitions for the statements -/

/-- True exactly for results with status OK. -/
def isOkResult : ToolResult → Bool
  | .ok _ _ => true
  | .err _ => false

/-- Projection of a `guessLetter` result to the reported
`(gameOver, won, remainingAttempts)` triple (`none` on an error result or
on a response without a guess report). -/
def reportOf : ToolResult → Option (Bool × Bool × Int)
  | .ok _ (.guess r) => some (r.gameOver, r.won, r.remainingAttempts)
  | _ => none

/-- Run a sequence of `guessLetter` tool calls, collecting the results. -/
def guessChain (st : GameState) (letters : List String) :
    GameState × List ToolResult :=
  letters.foldl
    (fun acc l =>
      ((onToolCall acc.1 "guessLetter" ⟨none, some l⟩).1,
        acc.2 ++ [(onToolCall acc.1 "guessLetter" ⟨none, some l⟩).2]))
    (st, [])

/-- The state reached by `submitSecretWord` with the empty word. -/
def emptyWordState : GameState := startGameAsAI ""

/-! ## Bridging equations (definitional, by the string dispatch) -/

lemma onToolCall_guessLetter_eq (s : GameState) (p : ToolParams) :
    onToolCall s "guessLetter" p =
      (match p.letter with
       | some l => processAIGuess s (strToLower l)
       | none => (s, .err .paramLetterInvalido)) := rfl

lemma onToolCall_agentlet_guessLetter_eq (s : GameState) (p : ToolParams) :
    onToolCall s "agentlet_guessLetter" p =
      (match p.letter with
       | some l => processAIGuess s (strToLower l)
       | none => (s, .err .paramLetterInvalido)) := rfl

/-! ## Claim theorems -/

/-- C8: `resetGame` is idempotent: from any state, one `resetGame` tool
call yields the idle state (empty secret word, empty letter sets, six
attempts, `gameOver = false`, `aiTurn = false`), and a second `resetGame`
call yields exactly the same state again. -/
theorem resetGame_idempotent (s : GameState) :
    (onToolCall s "resetGame" ⟨none, none⟩).1 =
      { secretWord := ""
        guessedLetters := []
        incorrectLetters := []
        remainingAttempts := 6
        gameOver := false
        aiTurn := false } ∧
    (onToolCall (onToolCall s "resetGame" ⟨none, none⟩).1
        "resetGame" ⟨none, none⟩).1 =
      (onToolCall s "resetGame" ⟨none, none⟩).1 :=
  ⟨rfl, rfl⟩

/-- C10: for every game state and every params value, each
`agentlet_`-prefixed tool name gives exactly the same result and state
change as the corresponding unprefixed tool name. -/
theorem prefixed_alias_equivalent (s : GameState) (p : ToolParams) :
    onToolCall s "agentlet_startTurnAsUser" p =
        onToolCall s "startTurnAsUser" p ∧
    onToolCall s "agentlet_guessLetter" p = onToolCall s "guessLetter" p ∧
    onToolCall s "agentlet_submitSecretWord" p =
        onToolCall s "submitSecretWord" p ∧
    onToolCall s "agentlet_resetGame" p = onToolCall s "resetGame" p :=
  ⟨rfl, rfl, rfl, rfl⟩

/-- C7: when the attribute value is not valid JSON (the parse throws), the
base class passes the raw attribute text unchanged to `onMessageFromShell`
and does nothing else — in particular it never invokes the tool-call hook
(the outcome is the same for every hook) and sends nothing to the host. -/
theorem invalid_json_forwarded {R : Type}
    (onTool : String → ToolParams → Option R) (raw : String) :
    attributeChangedCallback onTool "message" raw .failure =
      [.callMessageFromShell raw] := rfl

/-- C5: starting from any state, `submitSecretWord` with word `sol`
followed by six `guessLetter` calls with the letters x, y, z, w, q, j
reports `gameOver = false` on each of the first five calls, and
`gameOver = true`, `won = false`, `remainingAttempts = 0` on the sixth. -/
theorem scenario_sol_six_misses (s : GameState) :
    ((guessChain
        (onToolCall s "submitSecretWord" ⟨some "sol", none⟩).1
        ["x", "y", "z", "w", "q", "j"]).2.map reportOf) =
      [some (false, false, 5), some (false, false, 4),
        some (false, false, 3), some (false, false, 2),
        some (false, false, 1), some (true, false, 0)] := by
  have h : (onToolCall s "submitSecretWord" ⟨some "sol", none⟩).1 =
      { secretWord := "sol"
        guessedLetters := []
        incorrectLetters := []
        remainingAttempts := 6
        gameOver := false
        aiTurn := true } := rfl
  rw [h]
  decide

/-- C1 (counterexample): a reachable state with no secret word set
(reached by `submitSecretWord` with the empty word) in which a
`guessLetter` tool call is accepted — the result has status OK and the
state is mutated — refuting the claim that an absent secret word alone
forces rejection. -/
theorem guessLetter_emptyWord_accepted :
    Reachable emptyWordState ∧
    emptyWordState.secretWord = "" ∧
    emptyWordState.aiTurn = true ∧
    isOkResult (onToolCall emptyWordState "guessLetter" ⟨none, some "x"⟩).2 =
      true ∧
    (onToolCall emptyWordState "guessLetter" ⟨none, some "x"⟩).1 ≠
      emptyWordState :=
  ⟨⟨[.toolCall "submitSecretWord" ⟨some "", none⟩], rfl⟩, rfl, rfl, rfl,
    by decide⟩

/-- C1 (amended): for every reachable state with `aiTurn = false`, and for
every string letter, the `guessLetter` tool call is rejected with an error
result and the game state is left unchanged (hence no field is mutated). -/
theorem guessLetter_rejected_when_not_aiTurn (s : GameState) (l : String)
    (_hr : Reachable s) (h : s.aiTurn = false) :
    (onToolCall s "guessLetter" ⟨none, some l⟩).1 = s ∧
    (onToolCall s "guessLetter" ⟨none, some l⟩).2 = .err .noTurnoIA := by
  have e : onToolCall s "guessLetter" ⟨none, some l⟩ =
      processAIGuess s (strToLower l) := rfl
  rw [e]
  unfold processAIGuess
  rw [h]
  simp

/-- Witness for the amended C1 at the constructor state and letter a. -/
theorem guessLetter_rejected_when_not_aiTurn_witness :
    (onToolCall initialState "guessLetter" ⟨none, some "a"⟩).1 =
        initialState ∧
    (onToolCall initialState "guessLetter" ⟨none, some "a"⟩).2 =
        .err .noTurnoIA :=
  guessLetter_rejected_when_not_aiTurn initialState "a" ⟨[], rfl⟩ rfl

/-- C2 (counterexample): at the reachable constructor state no secret word
is set, and a virtual key press is rejected with no narration sent at all —
refuting the claim that rejections for an absent secret word also narrate. -/
theorem humanGuess_guard_silent :
    Reachable initialState ∧
    initialState.secretWord = "" ∧
    handleVirtualKey initialState "a" = (initialState, []) :=
  ⟨⟨[], rfl⟩, rfl, rfl⟩

/-- C2 (amended): a human key press narrates exactly when it passes the
guard (game not over, secret word set, human turn) and carries a valid key:
such presses — accepted or rejected as already tried — push at least one
narration; guard-rejected or invalid-key presses are silent and leave the
state unchanged.  The host-driven `guessLetter` path sends only the
synchronous tool-response envelope and never a separate narration. -/
theorem narration_policy (s : GameState) (l : String) (p : ToolParams) :
    ((s.gameOver || s.secretWord == "" || s.aiTurn) = true →
        handleVirtualKey s l = (s, [])) ∧
    ((s.gameOver || s.secretWord == "" || s.aiTurn) = false →
        isValidKey (strToLower l) = false →
        handleVirtualKey s l = (s, [])) ∧
    ((s.gameOver || s.secretWord == "" || s.aiTurn) = false →
        isValidKey (strToLower l) = true →
        (handleVirtualKey s l).2 ≠ []) ∧
    (handleMessageAttr s (.object (some "guessLetter") p)).2 =
      [.toolResponse "guessLetter" p
        (onToolCall s "guessLetter" p).2] := by
  refine ⟨?_, ?_, ?_, rfl⟩
  · intro hg
    unfold handleVirtualKey
    simp [hg]
  · intro hg hk
    unfold handleVirtualKey
    simp [hg, hk]
  · intro hg hk
    unfold handleVirtualKey
    simp only [hg, hk, Bool.not_true, Bool.false_eq_true, if_false,
      ite_false]
    split
    · simp
    · split <;> simp

/-- Witness for the amended C2: a valid fresh key press on a live game
narrates, and the host-driven path sends only the envelope. -/
theorem narration_policy_witness :
    (handleVirtualKey (startGame "gato") "g").2 ≠ [] ∧
    (handleMessageAttr initialState
        (.object (some "guessLetter") ⟨none, some "a"⟩)).2 =
      [.toolResponse "guessLetter" ⟨none, some "a"⟩
        (onToolCall initialState "guessLetter" ⟨none, some "a"⟩).2] :=
  ⟨(narration_policy (startGame "gato") "g" ⟨none, none⟩).2.2.1 rfl rfl,
    (narration_policy initialState "a" ⟨none, some "a"⟩).2.2.2⟩

/-- C6: when the attribute value parses to an object whose `tool` field is
a non-empty string, the base class invokes the tool hook with that name and
params, and sends the tool-response envelope to the host exactly when the
hook returns a defined result (and sends nothing otherwise). -/
theorem tool_envelope_iff_defined {R : Type}
    (onTool : String → ToolParams → Option R) (t : String)
    (p : ToolParams) (raw : String) (ht : t ≠ "") :
    (∀ r, onTool t p = some r →
        attributeChangedCallback onTool "message" raw
            (.object (some t) p) =
          [.sendToolResponse t p r]) ∧
    (onTool t p = none →
        attributeChangedCallback onTool "message" raw
            (.object (some t) p) = []) := by
  constructor
  · intro r hr
    simp [attributeChangedCallback, toolField, ht, hr]
  · intro hr
    simp [attributeChangedCallback, toolField, ht, hr]

/-- Witness for C6 with a hook that answers and one that does not. -/
theorem tool_envelope_iff_defined_witness :
    attributeChangedCallback
        (fun (_ : String) (_ : ToolParams) => some (0 : Nat)) "message"
        "raw" (.object (some "guessLetter") ⟨none, none⟩) =
      [.sendToolResponse "guessLetter" ⟨none, none⟩ 0] ∧
    attributeChangedCallback
        (fun (_ : String) (_ : ToolParams) => (none : Option Nat)) "message"
        "raw" (.object (some "guessLetter") ⟨none, none⟩) = [] :=
  ⟨(tool_envelope_iff_defined _ "guessLetter" ⟨none, none⟩ "raw"
      (by decide)).1 0 rfl,
    (tool_envelope_iff_defined _ "guessLetter" ⟨none, none⟩ "raw"
      (by decide)).2 rfl⟩

/-- C9: after `submitSecretWord` with the empty word the state has
`aiTurn = true` and `gameOver = false`, and a subsequent `guessLetter` call
with any (non-empty) letter — no letter has been tried yet — is accepted:
the result has status OK and reports `gameOver = true` and `won = true`,
even though the letter is recorded as incorrect and `remainingAttempts`
drops from 6 to 5. -/
theorem emptyWord_guess_wins (s : GameState) (l : String) (h : l ≠ "") :
    (onToolCall s "submitSecretWord" ⟨some "", none⟩).1 = emptyWordState ∧
    emptyWordState.aiTurn = true ∧
    emptyWordState.gameOver = false ∧
    (onToolCall emptyWordState "guessLetter" ⟨none, some l⟩).1.incorrectLetters
        = [strToLower l] ∧
    reportOf (onToolCall emptyWordState "guessLetter" ⟨none, some l⟩).2 =
      some (true, true, 5) := by
  have hd : (strToLower l).data ≠ [] := by
    intro hnil
    apply h
    cases l with
    | mk d =>
      cases d with
      | nil => rfl
      | cons c cs => simp [strToLower] at hnil
  have hinc : jsIncludes "" (strToLower l) = false := by
    unfold jsIncludes
    apply decide_eq_false
    rw [List.infix_nil]
    exact hd
  have e : onToolCall emptyWordState "guessLetter" ⟨none, some l⟩ =
      processAIGuess emptyWordState (strToLower l) := rfl
  refine ⟨rfl, rfl, rfl, ?_, ?_⟩ <;>
    rw [e] <;>
    unfold processAIGuess <;>
    simp [emptyWordState, startGameAsAI, startGame, hinc, applyGuess,
      guessOutcome, checkAIGameStatus, revealed, reportOf, maxAttempts]

/-- Witness for C9 at the letter x. -/
theorem emptyWord_guess_wins_witness :
    (onToolCall initialState "submitSecretWord" ⟨some "", none⟩).1 =
        emptyWordState ∧
    emptyWordState.aiTurn = true ∧
    emptyWordState.gameOver = false ∧
    (onToolCall emptyWordState "guessLetter" ⟨none, some "x"⟩).1.incorrectLetters
        = [strToLower "x"] ∧
    reportOf (onToolCall emptyWordState "guessLetter" ⟨none, some "x"⟩).2 =
      some (true, true, 5) :=
  emptyWord_guess_wins initialState "x" (by decide)

/-! ## Invariant infrastructure for C3 and C4 -/

/-- Attempts invariant: the counter is nonnegative, and strictly positive
while the game is still live (the game ends before the counter can be
spent below zero). -/
def AttemptsInv (s : GameState) : Prop :=
  0 ≤ s.remainingAttempts ∧ (s.gameOver = false → 0 < s.remainingAttempts)

/-- Letter-set invariant: every recorded guessed letter occurs in the
secret word and every recorded incorrect letter does not. -/
def LettersInv (s : GameState) : Prop :=
  (∀ x ∈ s.guessedLetters, jsIncludes s.secretWord x = true) ∧
  (∀ x ∈ s.incorrectLetters, jsIncludes s.secretWord x = false)

lemma checkGameStatus_remaining (st : GameState) :
    (checkGameStatus st).1.remainingAttempts = st.remainingAttempts := by
  unfold checkGameStatus
  split
  · rfl
  · split <;> rfl

lemma checkAIGameStatus_remaining (st : GameState) :
    (checkAIGameStatus st).1.remainingAttempts = st.remainingAttempts := by
  unfold checkAIGameStatus
  split
  · rfl
  · split <;> rfl

lemma checkGameStatus_cases (st : GameState) :
    (checkGameStatus st).1 = st ∨
      (checkGameStatus st).1 = { st with gameOver := true } := by
  unfold checkGameStatus
  split
  · right; rfl
  · split
    · right; rfl
    · left; rfl

lemma checkAIGameStatus_cases (st : GameState) :
    (checkAIGameStatus st).1 = st ∨
      (checkAIGameStatus st).1 = { st with gameOver := true } := by
  unfold checkAIGameStatus
  split
  · right; rfl
  · split
    · right; rfl
    · left; rfl

lemma checkGameStatus_attemptsInv (st : GameState)
    (h0 : 0 ≤ st.remainingAttempts) :
    AttemptsInv (checkGameStatus st).1 := by
  unfold checkGameStatus AttemptsInv
  split
  · exact ⟨h0, by simp⟩
  · split
    · exact ⟨h0, by simp⟩
    · rename_i hpos
      exact ⟨h0, fun _ => by show 0 < st.remainingAttempts; omega⟩

lemma checkAIGameStatus_attemptsInv (st : GameState)
    (h0 : 0 ≤ st.remainingAttempts) :
    AttemptsInv (checkAIGameStatus st).1 := by
  unfold checkAIGameStatus AttemptsInv
  split
  · exact ⟨h0, by simp⟩
  · split
    · exact ⟨h0, by simp⟩
    · rename_i hpos
      exact ⟨h0, fun _ => by show 0 < st.remainingAttempts; omega⟩

lemma applyGuess_remaining_le (st : GameState) (l : String) :
    (applyGuess st l).remainingAttempts ≤ st.remainingAttempts := by
  unfold applyGuess
  split
  · exact le_refl _
  · show st.remainingAttempts - 1 ≤ st.remainingAttempts
    omega

lemma applyGuess_remaining_nonneg (st : GameState) (l : String)
    (h : 0 < st.remainingAttempts) :
    0 ≤ (applyGuess st l).remainingAttempts := by
  unfold applyGuess
  split
  · exact le_of_lt h
  · show (0 : Int) ≤ st.remainingAttempts - 1
    omega

lemma applyGuess_lettersInv (st : GameState) (l : String)
    (h : LettersInv st) : LettersInv (applyGuess st l) := by
  unfold applyGuess
  split
  · rename_i hin
    refine ⟨?_, h.2⟩
    intro x hx
    rcases List.mem_append.mp hx with hx | hx
    · exact h.1 x hx
    · rw [List.mem_singleton.mp hx]
      exact hin
  · rename_i hin
    refine ⟨h.1, ?_⟩
    intro x hx
    rcases List.mem_append.mp hx with hx | hx
    · exact h.2 x hx
    · rw [List.mem_singleton.mp hx]
      exact Bool.not_eq_true _ ▸ (Bool.eq_false_iff.mpr hin)

lemma handleVirtualKey_attemptsInv (s : GameState) (l : String)
    (h : AttemptsInv s) : AttemptsInv (handleVirtualKey s l).1 := by
  unfold handleVirtualKey
  split
  · exact h
  · rename_i hguard
    have hgo : s.gameOver = false := by
      revert hguard
      cases s.gameOver <;> simp
    split
    · exact h
    · split
      · exact h
      · split
        · exact checkGameStatus_attemptsInv _
            (applyGuess_remaining_nonneg s _ (h.2 hgo))
        · exact checkGameStatus_attemptsInv _
            (applyGuess_remaining_nonneg s _ (h.2 hgo))

lemma processAIGuess_attemptsInv (s : GameState) (l : String)
    (h : AttemptsInv s) : AttemptsInv (processAIGuess s l).1 := by
  unfold processAIGuess guessOutcome
  split
  · exact h
  · rename_i hguard
    have hgo : s.gameOver = false := by
      revert hguard
      cases s.gameOver <;> simp
    split
    · exact h
    · split
      · exact checkAIGameStatus_attemptsInv _
          (applyGuess_remaining_nonneg s _ (h.2 hgo))
      · exact checkAIGameStatus_attemptsInv _
          (applyGuess_remaining_nonneg s _ (h.2 hgo))

lemma handleVirtualKey_lettersInv (s : GameState) (l : String)
    (h : LettersInv s) : LettersInv (handleVirtualKey s l).1 := by
  unfold handleVirtualKey
  split
  · exact h
  · split
    · exact h
    · split
      · exact h
      · have hal : LettersInv (applyGuess s (strToLower l)) :=
          applyGuess_lettersInv s _ h
        split
        · rcases checkGameStatus_cases (applyGuess s (strToLower l)) with
            hc | hc <;> rw [hc]
          · exact hal
          · exact hal
        · rcases checkGameStatus_cases (applyGuess s (strToLower l)) with
            hc | hc <;> rw [hc]
          · exact hal
          · exact hal

lemma processAIGuess_lettersInv (s : GameState) (l : String)
    (h : LettersInv s) : LettersInv (processAIGuess s l).1 := by
  unfold processAIGuess guessOutcome
  split
  · exact h
  · split
    · exact h
    · have hal : LettersInv (applyGuess s l) := applyGuess_lettersInv s _ h
      split
      · rcases checkAIGameStatus_cases (applyGuess s l) with hc | hc <;>
          rw [hc]
        · exact hal
        · exact hal
      · rcases checkAIGameStatus_cases (applyGuess s l) with hc | hc <;>
          rw [hc]
        · exact hal
        · exact hal

lemma fresh_attemptsInv (w : String) : AttemptsInv (startGame w) :=
  ⟨by norm_num [startGame, maxAttempts], fun _ => by
    norm_num [startGame, maxAttempts]⟩

lemma fresh_lettersInv (w : String) : LettersInv (startGame w) :=
  ⟨fun x hx => absurd hx (List.not_mem_nil x),
    fun x hx => absurd hx (List.not_mem_nil x)⟩

lemma onToolCall_attemptsInv (s : GameState) (n : String) (p : ToolParams)
    (h : AttemptsInv s) : AttemptsInv (onToolCall s n p).1 := by
  unfold onToolCall
  split
  · cases hw : p.word with
    | some w => exact fresh_attemptsInv (strToLower w)
    | none => exact h
  · split
    · cases hl : p.letter with
      | some l => exact processAIGuess_attemptsInv s _ h
      | none => exact h
    · split
      · cases hw : p.word with
        | some w => exact fresh_attemptsInv (strToLower w)
        | none => exact h
      · split
        · exact fresh_attemptsInv ""
        · exact h

lemma onToolCall_lettersInv (s : GameState) (n : String) (p : ToolParams)
    (h : LettersInv s) : LettersInv (onToolCall s n p).1 := by
  unfold onToolCall
  split
  · cases hw : p.word with
    | some w => exact fresh_lettersInv (strToLower w)
    | none => exact h
  · split
    · cases hl : p.letter with
      | some l => exact processAIGuess_lettersInv s _ h
      | none => exact h
    · split
      · cases hw : p.word with
        | some w => exact fresh_lettersInv (strToLower w)
        | none => exact h
      · split
        · exact fresh_lettersInv ""
        · exact h

lemma stepOp_attemptsInv (s : GameState) (op : Op)
    (h : AttemptsInv s) : AttemptsInv (stepOp s op) := by
  cases op with
  | toolCall n p => exact onToolCall_attemptsInv s n p h
  | virtualKey l => exact handleVirtualKey_attemptsInv s l h

lemma stepOp_lettersInv (s : GameState) (op : Op)
    (h : LettersInv s) : LettersInv (stepOp s op) := by
  cases op with
  | toolCall n p => exact onToolCall_lettersInv s n p h
  | virtualKey l => exact handleVirtualKey_lettersInv s l h

lemma runOps_preserves (P : GameState → Prop)
    (hstep : ∀ s op, P s → P (stepOp s op)) :
    ∀ (ops : List Op) (s : GameState), P s → P (runOps s ops) := by
  intro ops
  induction ops with
  | nil => intro s hs; exact hs
  | cons op rest ih =>
      intro s hs
      exact ih (stepOp s op) (hstep s op hs)

lemma reachable_attemptsInv (s : GameState) (h : Reachable s) :
    AttemptsInv s := by
  obtain ⟨ops, rfl⟩ := h
  exact runOps_preserves AttemptsInv stepOp_attemptsInv ops initialState
    ⟨by norm_num [initialState, maxAttempts], fun _ => by
      norm_num [initialState, maxAttempts]⟩

lemma reachable_lettersInv (s : GameState) (h : Reachable s) :
    LettersInv s := by
  obtain ⟨ops, rfl⟩ := h
  exact runOps_preserves LettersInv stepOp_lettersInv ops initialState
    ⟨fun x hx => absurd hx (List.not_mem_nil x),
      fun x hx => absurd hx (List.not_mem_nil x)⟩

lemma handleVirtualKey_remaining_le (s : GameState) (l : String) :
    (handleVirtualKey s l).1.remainingAttempts ≤ s.remainingAttempts := by
  unfold handleVirtualKey
  split
  · exact le_refl _
  · split
    · exact le_refl _
    · split
      · exact le_refl _
      · split
        · rw [checkGameStatus_remaining]
          exact applyGuess_remaining_le s _
        · rw [checkGameStatus_remaining]
          exact applyGuess_remaining_le s _

lemma processAIGuess_remaining_le (s : GameState) (l : String) :
    (processAIGuess s l).1.remainingAttempts ≤ s.remainingAttempts := by
  unfold processAIGuess guessOutcome
  split
  · exact le_refl _
  · split
    · exact le_refl _
    · split
      · rw [checkAIGameStatus_remaining]
        exact applyGuess_remaining_le s _
      · rw [checkAIGameStatus_remaining]
        exact applyGuess_remaining_le s _

lemma guessOp_remaining_le (s : GameState) (op : Op) (h : IsGuessOp op) :
    (stepOp s op).remainingAttempts ≤ s.remainingAttempts := by
  cases op with
  | virtualKey l => exact handleVirtualKey_remaining_le s l
  | toolCall n p =>
      rcases p with ⟨w, letter⟩
      cases h with
      | inl hn =>
          subst hn
          show (onToolCall s "guessLetter" ⟨w, letter⟩).1.remainingAttempts ≤
            s.remainingAttempts
          rw [onToolCall_guessLetter_eq]
          cases letter with
          | some l => exact processAIGuess_remaining_le s _
          | none => exact le_refl _
      | inr hn =>
          subst hn
          show (onToolCall s "agentlet_guessLetter"
              ⟨w, letter⟩).1.remainingAttempts ≤ s.remainingAttempts
          rw [onToolCall_agentlet_guessLetter_eq]
          cases letter with
          | some l => exact processAIGuess_remaining_le s _
          | none => exact le_refl _

lemma runOps_guess_remaining_le (ops : List Op) :
    ∀ s : GameState, (∀ op ∈ ops, IsGuessOp op) →
      (runOps s ops).remainingAttempts ≤ s.remainingAttempts := by
  induction ops with
  | nil => intro s _; exact le_refl _
  | cons op rest ih =>
      intro s hall
      have h1 := guessOp_remaining_le s op (hall op (List.mem_cons_self op rest))
      have h2 := ih (stepOp s op)
        (fun o ho => hall o (List.mem_cons_of_mem op ho))
      exact le_trans h2 h1

/-- C3: within a single game, the attempts counter never increases across
any sequence of human key presses and `guessLetter` tool calls (from any
starting state), and in every reachable state it is nonnegative. -/
theorem attempts_monotone_nonneg :
    (∀ (s : GameState) (ops : List Op), (∀ op ∈ ops, IsGuessOp op) →
        (runOps s ops).remainingAttempts ≤ s.remainingAttempts) ∧
    (∀ s : GameState, Reachable s → 0 ≤ s.remainingAttempts) :=
  ⟨fun s ops hall => runOps_guess_remaining_le ops s hall,
    fun s hs => (reachable_attemptsInv s hs).1⟩

/-- Witness for C3: one wrong key press on a live game, and the
constructor state. -/
theorem attempts_monotone_nonneg_witness :
    (runOps (startGame "sol") [Op.virtualKey "x"]).remainingAttempts ≤
      (startGame "sol").remainingAttempts ∧
    0 ≤ initialState.remainingAttempts :=
  ⟨attempts_monotone_nonneg.1 (startGame "sol") [Op.virtualKey "x"]
      (fun op hop => by
        rw [List.mem_singleton.mp hop]
        trivial),
    attempts_monotone_nonneg.2 initialState ⟨[], rfl⟩⟩

/-- C4: in every reachable state, the guessed and incorrect letter sets
are disjoint, every element of `guessedLetters` occurs in the secret word
(as a substring, which for single letters is character membership), and
every element of `incorrectLetters` does not occur in it. -/
theorem letters_disjoint_sound (s : GameState) (h : Reachable s) :
    (∀ x ∈ s.guessedLetters, x ∉ s.incorrectLetters) ∧
    (∀ x ∈ s.guessedLetters, jsIncludes s.secretWord x = true) ∧
    (∀ x ∈ s.incorrectLetters, jsIncludes s.secretWord x = false) := by
  have hi := reachable_lettersInv s h
  refine ⟨?_, hi.1, hi.2⟩
  intro x hx hx'
  have h1 := hi.1 x hx
  have h2 := hi.2 x hx'
  rw [h1] at h2
  exact Bool.noConfusion h2

/-- Witness for C4 at a reachable mid-game state: secret word gato, one
correct press g and one wrong press x. -/
theorem letters_disjoint_sound_witness :
    (∀ x ∈ (runOps initialState
        [Op.toolCall "startTurnAsUser" ⟨some "gato", none⟩,
          Op.virtualKey "g", Op.virtualKey "x"]).guessedLetters,
        x ∉ (runOps initialState
          [Op.toolCall "startTurnAsUser" ⟨some "gato", none⟩,
            Op.virtualKey "g", Op.virtualKey "x"]).incorrectLetters) ∧
    (∀ x ∈ (runOps initialState
        [Op.toolCall "startTurnAsUser" ⟨some "gato", none⟩,
          Op.virtualKey "g", Op.virtualKey "x"]).guessedLetters,
        jsIncludes (runOps initialState
          [Op.toolCall "startTurnAsUser" ⟨some "gato", none⟩,
            Op.virtualKey "g", Op.virtualKey "x"]).secretWord x = true) ∧
    (∀ x ∈ (runOps initialState
        [Op.toolCall "startTurnAsUser" ⟨some "gato", none⟩,
          Op.virtualKey "g", Op.virtualKey "x"]).incorrectLetters,
        jsIncludes (runOps initialState
          [Op.toolCall "startTurnAsUser" ⟨some "gato", none⟩,
            Op.virtualKey "g", Op.virtualKey "x"]).secretWord x = false) :=
  letters_disjoint_sound _ ⟨_, rfl⟩

end HangMan
